import Mathlib

/-!
# Verification of the `aioghost` Ghost Admin API client

A shallow embedding of `src/aioghost/client.py` (class `GhostAdminAPI`).

Modelling conventions:
* Decoded JSON values are the inductive `Json` below.
* Python exceptions that can be raised by the embedded code paths form the
  inductive `Err`; the library's own exception taxonomy is `GhostErr`.
* An HTTP round trip performed by `aiohttp` is abstracted as an
  `HttpOutcome`: either a transport-level failure (an `aiohttp.ClientError`
  raised during the call) or a response carrying a status code, the decoded
  JSON body when the body decodes (`none` when `response.json()` fails with
  a JSON decode error), and the raw body text returned by `response.text()`.
* Fallible Python code becomes `Except Err _`; `try/except` becomes a match
  on the `Except` value.
* Wall-clock time is an integer number of seconds since the epoch
  (`int(datetime.now(UTC).timestamp())` in the source).
-/

/-- A decoded JSON value (the result of `response.json()`). -/
inductive Json where
  | null : Json
  | bool (b : Bool) : Json
  | num (n : Int) : Json
  | str (s : String) : Json
  | arr (xs : List Json) : Json
  | obj (fields : List (String × Json)) : Json

/-- The exception taxonomy of `aioghost.exceptions`, imported by
`client.py` but whose module file is not part of the sources at hand.
Modelled from the spec: a flat taxonomy with a common base `GhostError`
("this is a core failure") and the four specific kinds `GhostAuthError`,
`GhostNotFoundError`, `GhostValidationError`, `GhostConnectionError`;
`api` below stands for the base `GhostError` raised directly for
uncategorised `>= 400` statuses.  `except GhostError` catches every
constructor; `except GhostNotFoundError` catches only `notFound`. -/
inductive GhostErr where
  | auth (msg : String) : GhostErr
  | notFound (msg : String) : GhostErr
  | validation (msg : Json) : GhostErr
  | connection (msg : String) : GhostErr
  | api (msg : String) : GhostErr

/-- Any exception the embedded code paths can raise: one of the library's
own `GhostErr` kinds, or a builtin Python exception escaping untouched
(`IndexError` from `xs[0]` on an empty list, `AttributeError` from `.get`
on a non-dict, `TypeError` from iterating / indexing a non-sequence, and
the `json` decoder's error when a body does not decode). -/
inductive Err where
  | ghost (e : GhostErr) : Err
  | indexError : Err
  | attributeError : Err
  | typeError : Err
  | jsonDecode : Err

/-- An HTTP response as observed through `aiohttp`: `status` is
`response.status`, `jsonBody` is `some v` when `response.json()` decodes to
`v` and `none` when it raises, `text` is `response.text()`. -/
structure HttpResponse where
  status : Nat
  jsonBody : Option Json
  text : String

/-- The outcome of one attempted HTTP round trip: a transport-level failure
(`aiohttp.ClientError`, carrying its rendered cause) or a response. -/
inductive HttpOutcome where
  | failure (cause : String) : HttpOutcome
  | response (r : HttpResponse) : HttpOutcome

namespace Json

/-- Python `d.get(key)` on a decoded JSON value: `.error .attributeError`
when the value is not a dict (lists, strings … have no `.get`), otherwise
the first binding of `key` if any. -/
def pyGet : Json → String → Except Err (Option Json)
  | .obj fields, key => .ok (fields.lookup key)
  | _, _ => .error .attributeError

/-- Python `d.get(key, default)`. -/
def pyGetD (j : Json) (key : String) (default : Json) : Except Err Json := do
  let v ← j.pyGet key
  pure (v.getD default)

/-- Python `xs[0]`: the head of a list, `IndexError` when the list is
empty, `TypeError`-ish failure when the value is not a sequence. -/
def pyIndex0 : Json → Except Err Json
  | .arr [] => .error .indexError
  | .arr (x :: _) => .ok x
  | _ => .error .typeError

/-- Python `xs[-1]`: the last element of a list, `IndexError` when the
list is empty. -/
def pyIndexLast : Json → Except Err Json
  | .arr xs =>
      match xs.getLast? with
      | some x => .ok x
      | none => .error .indexError
  | _ => .error .typeError

/-- Python truthiness of a decoded JSON value (`if posts:` …). -/
def pyTruthy : Json → Bool
  | .null => false
  | .bool b => b
  | .num n => n != 0
  | .str s => s != ""
  | .arr xs => !xs.isEmpty
  | .obj fields => !fields.isEmpty

/-- Python `for x in j`: the elements when `j` is a list, `TypeError`
otherwise (the code only ever iterates values it expects to be lists). -/
def pyIterList : Json → Except Err (List Json)
  | .arr xs => .ok xs
  | _ => .error .typeError

/-- Structural equality of decoded JSON values (Python `==` on the decoded
objects, used for dict keys). -/
def beq : Json → Json → Bool
  | .null, .null => true
  | .bool a, .bool b => a == b
  | .num a, .num b => a == b
  | .str a, .str b => a == b
  | .arr [], .arr [] => true
  | .arr (x :: xs), .arr (y :: ys) => beq x y && beq (.arr xs) (.arr ys)
  | .obj [], .obj [] => true
  | .obj ((k, v) :: fs), .obj ((k2, v2) :: gs) =>
      k == k2 && beq v v2 && beq (.obj fs) (.obj gs)
  | _, _ => false
termination_by a _ => sizeOf a
decreasing_by all_goals (simp_wf; try omega)

end Json

/-- Lines 174–175 of `client.py`:
`errors = data.get("errors", [{}])` followed by
`message = errors[0].get("message", "Validation failed")`.
The default `[{}]` applies only when the `"errors"` key is absent; a
present-but-empty list reaches `errors[0]` and raises `IndexError`. -/
def validationMessage (data : Json) : Except Err Json := do
  let errors ← data.pyGetD "errors" (Json.arr [Json.obj []])
  let e0 ← errors.pyIndex0
  e0.pyGetD "message" (Json.str "Validation failed")

/-- The response-classification part of `GhostAdminAPI._request`
(client.py lines 164–185), as a function of the endpoint and of the
outcome of the HTTP round trip.  The `try/except aiohttp.ClientError`
around the block turns a transport failure into `GhostConnectionError`;
the `GhostError` subclasses raised inside the block are not
`aiohttp.ClientError` and pass through it.  A body that fails to decode
as JSON raises the JSON decoder's error, which is not an
`aiohttp.ClientError` either and escapes (`Err.jsonDecode`). -/
def ghostRequest (endpoint : String) (o : HttpOutcome) : Except Err Json :=
  match o with
  | .failure cause =>
      .error (.ghost (.connection ("Connection failed: " ++ cause)))
  | .response r =>
      if r.status == 401 then
        .error (.ghost (.auth "Authentication failed. Check your API key."))
      else if r.status == 404 then
        .error (.ghost (.notFound ("Resource not found: " ++ endpoint)))
      else if r.status == 422 then
        match r.jsonBody with
        | none => .error .jsonDecode
        | some data =>
            match validationMessage data with
            | .ok msg => .error (.ghost (.validation msg))
            | .error e => .error e
      else if r.status ≥ 400 then
        .error (.ghost (.api ("API error " ++ toString r.status ++ ": " ++ r.text)))
      else
        match r.jsonBody with
        | none => .error .jsonDecode
        | some data => .ok data

/-! ## Token generation (`_generate_token`, client.py lines 78–103) -/

/-- The value of a single hexadecimal digit, `none` for a non-hex
character. -/
def hexVal (c : Char) : Option Nat :=
  if '0' ≤ c ∧ c ≤ '9' then some (c.toNat - '0'.toNat)
  else if 'a' ≤ c ∧ c ≤ 'f' then some (c.toNat - 'a'.toNat + 10)
  else if 'A' ≤ c ∧ c ≤ 'F' then some (c.toNat - 'A'.toNat + 10)
  else none

/-- ASCII whitespace, which Python's `bytes.fromhex` skips between byte
pairs. -/
def isAsciiSpace (c : Char) : Bool :=
  c = ' ' || c = '\t' || c = '\n' || c = '\r' || c = '\x0b' || c = '\x0c'

/-- Python `bytes.fromhex` on a character list: pairs of hex digits, with
ASCII whitespace allowed between pairs but not inside one; `none` models
the `ValueError` raised on any other input. -/
def fromhexAux : List Char → Option (List Nat)
  | [] => some []
  | c :: rest =>
      if isAsciiSpace c then fromhexAux rest
      else
        match rest with
        | [] => none
        | d :: rest2 =>
            match hexVal c, hexVal d, fromhexAux rest2 with
            | some hi, some lo, some bs => some ((hi * 16 + lo) :: bs)
            | _, _, _ => none

/-- Python `bytes.fromhex(secret)`. -/
def fromhex (s : String) : Option (List Nat) := fromhexAux s.toList

/-- Python `s.split(":")` on a character list: split on every colon, so a
string with `n` colons yields `n + 1` pieces. -/
def pySplitColon : List Char → List (List Char)
  | [] => [[]]
  | c :: rest =>
      if c = ':' then [] :: pySplitColon rest
      else
        match pySplitColon rest with
        | h :: t => (c :: h) :: t
        | [] => [[c]]

/-- `JWT_EXPIRY_MINUTES = 5` (client.py line 49). -/
def JWT_EXPIRY_MINUTES : Int := 5

/-- The `headers` dict passed to `jwt.encode` (client.py lines 97–101). -/
structure JwtHeader where
  alg : String
  kid : String
  typ : String

/-- The `payload` dict passed to `jwt.encode` (client.py lines 91–95):
issued-at and expiry as integral UNIX timestamps, and the audience. -/
structure JwtClaims where
  iat : Int
  exp : Int
  aud : String

/-- The data handed to `jwt.encode(payload, secret_bytes,
algorithm="HS256", headers=headers)`: the signing library produces an
HMAC-SHA-256-signed compact token over exactly these inputs, so the token
is represented by them. -/
structure JwtToken where
  header : JwtHeader
  claims : JwtClaims
  key : List Nat
  algorithm : String

/-- `GhostAdminAPI._generate_token` (client.py lines 78–103) as a function
of the credential string and the current UTC time in whole seconds
(`int(datetime.now(UTC).timestamp())`).  The tuple unpacking
`key_id, secret = self.admin_api_key.split(":")` raises `ValueError`
unless the split has exactly two pieces, which the code converts to
`GhostAuthError`; a failing `bytes.fromhex` likewise. -/
def generateToken (adminApiKey : String) (now : Int) : Except GhostErr JwtToken :=
  match pySplitColon adminApiKey.toList with
  | [keyId, secret] =>
      match fromhex (String.mk secret) with
      | none => .error (.auth "Invalid API key secret. Expected hex string.")
      | some secretBytes =>
          .ok { header := { alg := "HS256", kid := String.mk keyId, typ := "JWT" }
                claims := { iat := now, exp := now + 60 * JWT_EXPIRY_MINUTES, aud := "/admin/" }
                key := secretBytes
                algorithm := "HS256" }
  | _ => .error (.auth "Invalid API key format. Expected 'id:secret'")

/-! ## Construction and session lifecycle
(`__init__`, `close`, `__aenter__`, `__aexit__`; client.py lines 55–123) -/

/-- An `aiohttp.ClientSession` as far as the client observes it: whether
it has been closed.  A live session object is always truthy in Python. -/
structure Session where
  closed : Bool

/-- The state of a `GhostAdminAPI` instance.  `session` and
`owns_session` model the `_session` and `_owns_session` attributes. -/
structure GhostAdminAPI where
  api_url : String
  admin_api_key : String
  session : Option Session
  owns_session : Bool

/-- Python `s.rstrip("/")`: remove every trailing `/`. -/
def pyRstripSlash (s : String) : String :=
  String.mk ((s.toList.reverse.dropWhile (· = '/')).reverse)

/-- Python `s.startswith(pat)`. -/
def pyStartsWith (s pat : String) : Bool :=
  pat.toList.isPrefixOf s.toList

/-- `GhostAdminAPI.__init__` (client.py lines 55–76).  The `ValueError`
raised for a non-HTTPS URL is modelled as the `.error` case (it is a
builtin exception, not part of the Ghost taxonomy).  No session is ever
created here: the stored session is exactly the argument, and ownership
is claimed exactly when no session was passed. -/
def ghostAdminAPIInit (apiUrl adminApiKey : String) (sessionArg : Option Session) :
    Except String GhostAdminAPI :=
  if !pyStartsWith apiUrl "https://" then
    .error "api_url must use HTTPS"
  else
    .ok { api_url := pyRstripSlash apiUrl
          admin_api_key := adminApiKey
          session := sessionArg
          owns_session := sessionArg.isNone }

/-- `GhostAdminAPI.close` (client.py lines 112–115): close the session
only when this client owns one that exists and is still open. -/
def GhostAdminAPI.close (c : GhostAdminAPI) : GhostAdminAPI :=
  match c.session with
  | some s =>
      if c.owns_session && !s.closed then
        { c with session := some { s with closed := true } }
      else c
  | none => c

/-- `GhostAdminAPI.__aenter__` (client.py lines 117–119): returns `self`
unchanged. -/
def GhostAdminAPI.aenter (c : GhostAdminAPI) : GhostAdminAPI := c

/-- `GhostAdminAPI.__aexit__` (client.py lines 121–123): ignores the
exception information (`*args`) and always calls `close`; returning
`None` it never suppresses the exception. -/
def GhostAdminAPI.aexit (c : GhostAdminAPI) (_excInfo : Option String) : GhostAdminAPI :=
  c.close

/-! ## Resource methods over the request pipeline
Each resource method is modelled as a function of the outcome of the HTTP
round trip it performs; the outbound request (method, query, payload)
determines which outcome the remote produces but not how the response is
handled, so it is abstracted into the `HttpOutcome` argument. -/

/-- `GhostAdminAPI.get_post` (client.py lines 257–271): the `try` body
fetches, reads `posts = data.get("posts", [])` and returns
`posts[0] if posts else None`; `except GhostNotFoundError` downgrades
only the not-found error to `None`. -/
def getPost (postId : String) (o : HttpOutcome) : Except Err (Option Json) :=
  let body : Except Err (Option Json) := do
    let data ← ghostRequest ("/ghost/api/admin/posts/" ++ postId ++ "/") o
    let posts ← data.pyGetD "posts" (Json.arr [])
    if posts.pyTruthy then do
      let p ← posts.pyIndex0
      pure (some p)
    else
      pure none
  match body with
  | .error (.ghost (.notFound _)) => .ok none
  | other => other

/-- `GhostAdminAPI.update_post` (client.py lines 320–372): the assembled
`post_data` only shapes the outbound PUT payload; the response handling
(lines 367–372) is identical in form to `get_post`, downgrading only
`GhostNotFoundError` to `None`. -/
def updatePost (postId : String) (o : HttpOutcome) : Except Err (Option Json) :=
  let body : Except Err (Option Json) := do
    let data ← ghostRequest ("/ghost/api/admin/posts/" ++ postId ++ "/") o
    let posts ← data.pyGetD "posts" (Json.arr [])
    if posts.pyTruthy then do
      let p ← posts.pyIndex0
      pure (some p)
    else
      pure none
  match body with
  | .error (.ghost (.notFound _)) => .ok none
  | other => other

/-- `GhostAdminAPI.delete_post` (client.py lines 374–387): `True` on
success, `False` when the DELETE raised `GhostNotFoundError`, every other
exception propagates. -/
def deletePost (postId : String) (o : HttpOutcome) : Except Err Bool :=
  match ghostRequest ("/ghost/api/admin/posts/" ++ postId ++ "/") o with
  | .error (.ghost (.notFound _)) => .ok false
  | .error e => .error e
  | .ok _ => .ok true

/-- Python `result[currency] = v` on the `result` dict of `get_mrr`:
overwrite the value when the key is already bound (keeping its
position), append otherwise. -/
def pyDictSet (d : List (Json × Json)) (k v : Json) : List (Json × Json) :=
  match d with
  | [] => [(k, v)]
  | (k2, v2) :: rest =>
      if Json.beq k2 k then (k2, v) :: rest
      else (k2, v2) :: pyDictSet rest k v

/-- One iteration of the `for currency_data in data.get("data", [])` loop
of `get_mrr` (client.py lines 425–430). -/
def mrrStep (result : List (Json × Json)) (currencyData : Json) :
    Except Err (List (Json × Json)) := do
  let currency ← currencyData.pyGetD "currency" (Json.str "usd")
  let values ← currencyData.pyGetD "data" (Json.arr [])
  if values.pyTruthy then do
    let latest ← values.pyIndexLast
    let v ← latest.pyGetD "value" (Json.num 0)
    pure (pyDictSet result currency v)
  else
    pure result

/-- The body-processing part of `GhostAdminAPI.get_mrr`
(client.py lines 424–432), from the decoded response body to the
`result` dict. -/
def mrrOfBody (data : Json) : Except Err (List (Json × Json)) := do
  let raw ← data.pyGetD "data" (Json.arr [])
  let entries ← raw.pyIterList
  entries.foldlM mrrStep []

/-- `GhostAdminAPI.get_mrr` (client.py lines 415–432). -/
def getMrr (o : HttpOutcome) : Except Err (List (Json × Json)) := do
  let data ← ghostRequest "/ghost/api/admin/members/stats/mrr/" o
  mrrOfBody data

/-- The per-endpoint `fetch_count` closure of
`GhostAdminAPI.get_activitypub_stats` (client.py lines 540–548): inside
`try/except Exception: pass`, assign `data.get("totalItems", 0)` to the
key only when `response.ok` (status `< 400`) and the body decodes and the
`.get` succeeds; on any exception, or a non-ok status, the key keeps its
initial `0`. -/
def fetchCount (o : HttpOutcome) : Json :=
  match o with
  | .failure _ => Json.num 0
  | .response r =>
      if r.status < 400 then
        match r.jsonBody with
        | none => Json.num 0
        | some data =>
            match data.pyGetD "totalItems" (Json.num 0) with
            | .ok v => v
            | .error _ => Json.num 0
      else Json.num 0

/-- The `stats` dict of `get_activitypub_stats`, initialised to
`{"followers": 0, "following": 0}`. -/
structure ActivityPubStats where
  followers : Json
  following : Json

/-- `GhostAdminAPI.get_activitypub_stats` (client.py lines 529–555): two
concurrent branch fetches, each writing only its own key; the call
returns a plain value — a total function, no error channel — because each
branch catches every exception. -/
def getActivitypubStats (followersOutcome followingOutcome : HttpOutcome) :
    ActivityPubStats :=
  { followers := fetchCount followersOutcome
    following := fetchCount followingOutcome }

/-- `GhostAdminAPI.create_webhook` (client.py lines 561–579):
`webhooks = data.get("webhooks", [{}])` then `return webhooks[0]`.  The
`event` and `target_url` arguments only populate the outbound POST
payload. -/
def createWebhook (_event _targetUrl : String) (o : HttpOutcome) : Except Err Json := do
  let data ← ghostRequest "/ghost/api/admin/webhooks/" o
  let webhooks ← data.pyGetD "webhooks" (Json.arr [Json.obj []])
  webhooks.pyIndex0

/-- Python `==` on decoded JSON values, used as the dict-key equality of
the `result` dict in `get_mrr`. -/
instance : BEq Json := ⟨Json.beq⟩

/-- A well-formed MRR entry as the stats endpoint documents it: a
currency name and its time series of `{"value": v}` points. -/
def mkMrrEntry (c : String) (vals : List Int) : Json :=
  Json.obj [("currency", Json.str c),
            ("data", Json.arr (vals.map fun v => Json.obj [("value", Json.num v)]))]

/-- A well-formed MRR response body
`{"data": [{"currency": c, "data": [{"value": v}, …]}, …]}`. -/
def mkMrrBody (entries : List (String × List Int)) : Json :=
  Json.obj [("data", Json.arr (entries.map fun e => mkMrrEntry e.1 e.2))]

/-! ## Helper lemmas -/

theorem dropWhile_dropWhile {α : Type} (p : α → Bool) (l : List α) :
    (l.dropWhile p).dropWhile p = l.dropWhile p := by
  induction l with
  | nil => rfl
  | cons a l ih =>
    by_cases h : p a
    · simp [List.dropWhile_cons, h, ih]
    · simp [List.dropWhile_cons, h]

theorem pyRstripSlash_idem (s : String) :
    pyRstripSlash (pyRstripSlash s) = pyRstripSlash s := by
  simp [pyRstripSlash, dropWhile_dropWhile]

/-! ## C5: construction -/

/-- C5: constructing a client with a base URL that does not use the HTTPS
scheme fails immediately with `ValueError` (a configuration error), and no
network activity can have occurred because construction is a pure function
that stores the passed session unchanged and creates none; for every
accepted base URL the stored URL is the trailing-slash-stripped input, a
fixed point of the stripping. -/
theorem init_requires_https_and_strips_slashes
    (apiUrl adminApiKey : String) (sessionArg : Option Session) :
    (pyStartsWith apiUrl "https://" = false →
        ghostAdminAPIInit apiUrl adminApiKey sessionArg =
          .error "api_url must use HTTPS") ∧
    (∀ c, ghostAdminAPIInit apiUrl adminApiKey sessionArg = .ok c →
        c.api_url = pyRstripSlash apiUrl ∧
        pyRstripSlash c.api_url = c.api_url ∧
        c.admin_api_key = adminApiKey ∧
        c.session = sessionArg ∧
        c.owns_session = sessionArg.isNone) := by
  constructor
  · intro h
    simp [ghostAdminAPIInit, h]
  · intro c hc
    unfold ghostAdminAPIInit at hc
    by_cases h : pyStartsWith apiUrl "https://"
    · simp [h] at hc
      subst hc
      exact ⟨rfl, pyRstripSlash_idem apiUrl, rfl, rfl, rfl⟩
    · simp [h] at hc

/-- Witness for C5 at concrete inputs: an `http://` URL is rejected, and
`https://test.ghost.io/` is stored as `https://test.ghost.io`. -/
theorem init_requires_https_and_strips_slashes_witness :
    ghostAdminAPIInit "http://test.ghost.io" "k:ab" none =
      .error "api_url must use HTTPS" ∧
    ∀ c, ghostAdminAPIInit "https://test.ghost.io/" "k:ab" none = .ok c →
      c.api_url = pyRstripSlash "https://test.ghost.io/" := by
  constructor
  · exact (init_requires_https_and_strips_slashes
      "http://test.ghost.io" "k:ab" none).1 (by decide)
  · intro c hc
    exact ((init_requires_https_and_strips_slashes
      "https://test.ghost.io/" "k:ab" none).2 c hc).1

/-! ## C6: session teardown and scoped acquisition -/

/-- C6: `close` closes the underlying session exactly when the client owns
one that exists and is open, and is a no-op otherwise (a borrowed session
is left untouched, hence open); `__aenter__` returns the client unchanged
and `__aexit__` calls `close` whatever exit information it receives,
error exits included. -/
theorem close_owned_open_session_only (c : GhostAdminAPI) (exc : Option String) :
    (∀ s, c.session = some s → c.owns_session = true → s.closed = false →
        c.close = { c with session := some { closed := true } }) ∧
    (c.owns_session = false → c.close = c) ∧
    (c.session = none → c.close = c) ∧
    (∀ s, c.session = some s → s.closed = true → c.close = c) ∧
    c.aenter = c ∧
    c.aexit exc = c.close := by
  refine ⟨?_, ?_, ?_, ?_, rfl, rfl⟩
  · intro s hs hown hopen
    simp [GhostAdminAPI.close, hs, hown, hopen]
  · intro hown
    unfold GhostAdminAPI.close
    cases hs : c.session with
    | none => rfl
    | some s => simp [hown]
  · intro hs
    simp [GhostAdminAPI.close, hs]
  · intro s hs hclosed
    simp [GhostAdminAPI.close, hs, hclosed]

/-- Witness for C6 at concrete states: closing an owning client closes its
open session; closing a client borrowing the same session leaves it
untouched. -/
theorem close_owned_open_session_only_witness :
    GhostAdminAPI.close
        { api_url := "https://x", admin_api_key := "k:ab",
          session := some { closed := false }, owns_session := true } =
      { api_url := "https://x", admin_api_key := "k:ab",
        session := some { closed := true }, owns_session := true } ∧
    GhostAdminAPI.close
        { api_url := "https://x", admin_api_key := "k:ab",
          session := some { closed := false }, owns_session := false } =
      { api_url := "https://x", admin_api_key := "k:ab",
        session := some { closed := false }, owns_session := false } := by
  constructor
  · exact (close_owned_open_session_only
      { api_url := "https://x", admin_api_key := "k:ab",
        session := some { closed := false }, owns_session := true } none).1
      { closed := false } rfl rfl rfl
  · exact (close_owned_open_session_only
      { api_url := "https://x", admin_api_key := "k:ab",
        session := some { closed := false }, owns_session := false } none).2.1 rfl

/-! ## C10: create_webhook on an empty webhooks list -/

/-- C10: a successful (status 200) response whose JSON body maps
`"webhooks"` to an empty list makes `create_webhook` raise `IndexError`
(outside the Ghost error taxonomy), because the `[{}]` fallback of
`data.get("webhooks", [{}])` applies only when the key is entirely
absent — in which case an empty dict is returned instead. -/
theorem create_webhook_empty_list_raises_index_error :
    createWebhook "member.added" "https://example.com/hook"
        (.response { status := 200,
                     jsonBody := some (Json.obj [("webhooks", Json.arr [])]),
                     text := "" }) = .error .indexError ∧
    createWebhook "member.added" "https://example.com/hook"
        (.response { status := 200, jsonBody := some (Json.obj []), text := "" }) =
      .ok (Json.obj []) := by
  constructor <;> rfl

/-! ## C8: ActivityPub stats swallow every per-branch failure -/

theorem fetchCount_failure (cause : String) :
    fetchCount (.failure cause) = Json.num 0 := rfl

theorem fetchCount_nonOk (r : HttpResponse) (h : 400 ≤ r.status) :
    fetchCount (.response r) = Json.num 0 := by
  simp [fetchCount, Nat.not_lt.mpr h]

/-- C8: `get_activitypub_stats` is a total function (it never raises):
each branch's count is a function of that branch's outcome only, and a
branch whose round trip fails at transport level or returns a non-success
(`>= 400`) status contributes `0` for its own key; in particular two
failing branches give `{followers: 0, following: 0}`. -/
theorem activitypub_stats_swallow_failures (o1 o2 : HttpOutcome) :
    (getActivitypubStats o1 o2).followers = fetchCount o1 ∧
    (getActivitypubStats o1 o2).following = fetchCount o2 ∧
    (∀ cause, o1 = .failure cause → (getActivitypubStats o1 o2).followers = Json.num 0) ∧
    (∀ r, o1 = .response r → 400 ≤ r.status →
        (getActivitypubStats o1 o2).followers = Json.num 0) ∧
    (∀ cause, o2 = .failure cause → (getActivitypubStats o1 o2).following = Json.num 0) ∧
    (∀ r, o2 = .response r → 400 ≤ r.status →
        (getActivitypubStats o1 o2).following = Json.num 0) := by
  refine ⟨rfl, rfl, ?_, ?_, ?_, ?_⟩
  · intro cause h; subst h; rfl
  · intro r h hs; subst h; exact fetchCount_nonOk r hs
  · intro cause h; subst h; rfl
  · intro r h hs; subst h; exact fetchCount_nonOk r hs

/-- Witness for C8: both endpoints returning 404 yield
`{followers: 0, following: 0}`. -/
theorem activitypub_stats_swallow_failures_witness :
    (getActivitypubStats (.response { status := 404, jsonBody := none, text := "" })
        (.response { status := 404, jsonBody := none, text := "" })).followers = Json.num 0 ∧
    (getActivitypubStats (.response { status := 404, jsonBody := none, text := "" })
        (.response { status := 404, jsonBody := none, text := "" })).following = Json.num 0 := by
  constructor
  · exact (activitypub_stats_swallow_failures
      (.response { status := 404, jsonBody := none, text := "" })
      (.response { status := 404, jsonBody := none, text := "" })).2.2.2.1
      { status := 404, jsonBody := none, text := "" } rfl (by decide)
  · exact (activitypub_stats_swallow_failures
      (.response { status := 404, jsonBody := none, text := "" })
      (.response { status := 404, jsonBody := none, text := "" })).2.2.2.2.2
      { status := 404, jsonBody := none, text := "" } rfl (by decide)

/-! ## C7: get/update/delete post downgrade only the not-found error -/

theorem except_bind_error {β : Type} (e : Err) (f : Json → Except Err β) :
    ((Except.error e : Except Err Json) >>= f) = Except.error e := rfl

theorem except_bind_ok {α β : Type} (a : α) (f : α → Except Err β) :
    ((Except.ok a : Except Err α) >>= f) = f a := rfl

theorem except_bind_error' {α β : Type} (e : Err) (f : α → Except Err β) :
    ((Except.error e : Except Err α) >>= f) = Except.error e := rfl

theorem except_map_ok {α β : Type} (f : α → β) (a : α) :
    (f <$> (Except.ok a : Except Err α)) = Except.ok (f a) := rfl

theorem except_map_error {α β : Type} (f : α → β) (e : Err) :
    (f <$> (Except.error e : Except Err α)) = Except.error e := rfl

theorem updatePost_eq_getPost (postId : String) (o : HttpOutcome) :
    updatePost postId o = getPost postId o := rfl

theorem getPost_of_request_notFound (postId : String) (o : HttpOutcome) (m : String)
    (h : ghostRequest ("/ghost/api/admin/posts/" ++ postId ++ "/") o =
        .error (.ghost (.notFound m))) :
    getPost postId o = .ok none := by
  simp [getPost, h, except_bind_error]

theorem deletePost_of_request_notFound (postId : String) (o : HttpOutcome) (m : String)
    (h : ghostRequest ("/ghost/api/admin/posts/" ++ postId ++ "/") o =
        .error (.ghost (.notFound m))) :
    deletePost postId o = .ok false := by
  simp [deletePost, h]

theorem getPost_propagates (postId : String) (o : HttpOutcome) (e : Err)
    (h : ghostRequest ("/ghost/api/admin/posts/" ++ postId ++ "/") o = .error e)
    (hne : ∀ m, e ≠ .ghost (.notFound m)) :
    getPost postId o = .error e := by
  rcases e with ge | _ | _ | _ | _
  · rcases ge with m | m | m | m | m
    · simp [getPost, h, except_bind_error]
    · exact absurd rfl (hne m)
    · simp [getPost, h, except_bind_error]
    · simp [getPost, h, except_bind_error]
    · simp [getPost, h, except_bind_error]
  · simp [getPost, h, except_bind_error]
  · simp [getPost, h, except_bind_error]
  · simp [getPost, h, except_bind_error]
  · simp [getPost, h, except_bind_error]

theorem deletePost_propagates (postId : String) (o : HttpOutcome) (e : Err)
    (h : ghostRequest ("/ghost/api/admin/posts/" ++ postId ++ "/") o = .error e)
    (hne : ∀ m, e ≠ .ghost (.notFound m)) :
    deletePost postId o = .error e := by
  rcases e with ge | _ | _ | _ | _
  · rcases ge with m | m | m | m | m
    · simp [deletePost, h]
    · exact absurd rfl (hne m)
    · simp [deletePost, h]
    · simp [deletePost, h]
    · simp [deletePost, h]
  · simp [deletePost, h]
  · simp [deletePost, h]
  · simp [deletePost, h]
  · simp [deletePost, h]

/-- C7: when the round trip classifies as not-found — in particular for
every 404 response — `get_post` returns `None`, `update_post` returns
`None` and `delete_post` returns `False` instead of propagating
`GhostNotFoundError`; `delete_post` returns `True` on success; every
other error propagates unchanged from all three methods. -/
theorem post_methods_downgrade_only_notfound (postId : String) (o : HttpOutcome) :
    (∀ m, ghostRequest ("/ghost/api/admin/posts/" ++ postId ++ "/") o =
          .error (.ghost (.notFound m)) →
        getPost postId o = .ok none ∧ updatePost postId o = .ok none ∧
        deletePost postId o = .ok false) ∧
    (∀ r, o = .response r → r.status = 404 →
        getPost postId o = .ok none ∧ updatePost postId o = .ok none ∧
        deletePost postId o = .ok false) ∧
    (∀ d, ghostRequest ("/ghost/api/admin/posts/" ++ postId ++ "/") o = .ok d →
        deletePost postId o = .ok true) ∧
    (∀ e, ghostRequest ("/ghost/api/admin/posts/" ++ postId ++ "/") o = .error e →
        (∀ m, e ≠ .ghost (.notFound m)) →
        getPost postId o = .error e ∧ updatePost postId o = .error e ∧
        deletePost postId o = .error e) := by
  refine ⟨?_, ?_, ?_, ?_⟩
  · intro m h
    exact ⟨getPost_of_request_notFound postId o m h,
      (updatePost_eq_getPost postId o).trans (getPost_of_request_notFound postId o m h),
      deletePost_of_request_notFound postId o m h⟩
  · intro r ho hs
    subst ho
    have h : ghostRequest ("/ghost/api/admin/posts/" ++ postId ++ "/") (.response r) =
        .error (.ghost (.notFound
          ("Resource not found: " ++ ("/ghost/api/admin/posts/" ++ postId ++ "/")))) := by
      simp [ghostRequest, hs]
    exact ⟨getPost_of_request_notFound postId _ _ h,
      (updatePost_eq_getPost postId _).trans (getPost_of_request_notFound postId _ _ h),
      deletePost_of_request_notFound postId _ _ h⟩
  · intro d h
    simp [deletePost, h]
  · intro e h hne
    exact ⟨getPost_propagates postId o e h hne,
      (updatePost_eq_getPost postId o).trans (getPost_propagates postId o e h hne),
      deletePost_propagates postId o e h hne⟩

/-- Witness for C7: a 404 response makes the three methods return `None`,
`None` and `False`; a 200 response with a decoded body makes
`delete_post` return `True`; a 401 response propagates `GhostAuthError`
from `get_post`. -/
theorem post_methods_downgrade_only_notfound_witness :
    getPost "abc" (.response { status := 404, jsonBody := none, text := "" }) = .ok none ∧
    updatePost "abc" (.response { status := 404, jsonBody := none, text := "" }) = .ok none ∧
    deletePost "abc" (.response { status := 404, jsonBody := none, text := "" }) = .ok false ∧
    deletePost "abc" (.response { status := 200, jsonBody := some (Json.obj []), text := "" }) =
      .ok true ∧
    getPost "abc" (.response { status := 401, jsonBody := none, text := "" }) =
      .error (.ghost (.auth "Authentication failed. Check your API key.")) := by
  have h404 := (post_methods_downgrade_only_notfound "abc"
      (.response { status := 404, jsonBody := none, text := "" })).2.1
      { status := 404, jsonBody := none, text := "" } rfl rfl
  have h200 := (post_methods_downgrade_only_notfound "abc"
      (.response { status := 200, jsonBody := some (Json.obj []), text := "" })).2.2.1
      (Json.obj []) rfl
  have h401 := ((post_methods_downgrade_only_notfound "abc"
      (.response { status := 401, jsonBody := none, text := "" })).2.2.2
      (.ghost (.auth "Authentication failed. Check your API key.")) rfl
      (by intro m hm; cases hm)).1
  exact ⟨h404.1, h404.2.1, h404.2.2, h200, h401⟩

/-! ## C3, C4: token generation -/

theorem pySplitColon_ne_nil (l : List Char) : pySplitColon l ≠ [] := by
  cases l with
  | nil => simp [pySplitColon]
  | cons c rest =>
    unfold pySplitColon
    by_cases h : c = ':'
    · simp [h]
    · simp only [h, if_false]
      cases hr : pySplitColon rest <;> simp

theorem pySplitColon_length (l : List Char) :
    (pySplitColon l).length = l.count ':' + 1 := by
  induction l with
  | nil => simp [pySplitColon]
  | cons c rest ih =>
    unfold pySplitColon
    by_cases h : c = ':'
    · subst h
      simp [List.count_cons, ih]
    · rw [if_neg h]
      cases hr : pySplitColon rest with
      | nil => exact absurd hr (pySplitColon_ne_nil rest)
      | cons hd tl =>
        rw [hr] at ih
        have hbc : (c == ':') = false := beq_eq_false_iff_ne.mpr h
        simp [List.count_cons, hbc] at ih ⊢
        omega

theorem pySplitColon_no_colon (l : List Char) (h : ':' ∉ l) : pySplitColon l = [l] := by
  induction l with
  | nil => rfl
  | cons c rest ih =>
    rw [List.mem_cons, not_or] at h
    obtain ⟨h1, h2⟩ := h
    simp [pySplitColon, Ne.symm h1, ih h2]

theorem pySplitColon_append (a b : List Char) (ha : ':' ∉ a) :
    pySplitColon (a ++ ':' :: b) = a :: pySplitColon b := by
  induction a with
  | nil => simp [pySplitColon]
  | cons c rest ih =>
    rw [List.mem_cons, not_or] at ha
    obtain ⟨h1, h2⟩ := ha
    simp [pySplitColon, Ne.symm h1, ih h2]

theorem string_mk_toList (s : String) : String.mk s.toList = s := rfl

theorem string_mk_data (s : String) : String.mk s.data = s := rfl

/-- C3: a credential string without exactly one `:`, or one whose secret
half is not valid hexadecimal, makes token generation fail with
`GhostAuthError` — and token generation never fails with any other error
kind. -/
theorem generate_token_failures_are_auth_errors (key : String) (now : Int) :
    (key.toList.count ':' ≠ 1 →
        generateToken key now =
          .error (.auth "Invalid API key format. Expected 'id:secret'")) ∧
    (∀ i s, pySplitColon key.toList = [i, s] → fromhex (String.mk s) = none →
        generateToken key now =
          .error (.auth "Invalid API key secret. Expected hex string.")) ∧
    (∀ e, generateToken key now = .error e → ∃ m, e = GhostErr.auth m) := by
  refine ⟨?_, ?_, ?_⟩
  · intro h
    have hlen : (pySplitColon key.toList).length ≠ 2 := by
      rw [pySplitColon_length]
      omega
    rcases hsp : pySplitColon key.toList with _ | ⟨a, _ | ⟨b, _ | ⟨c, t⟩⟩⟩
    · simp only [String.toList] at hsp
      simp [generateToken, hsp]
    · simp only [String.toList] at hsp
      simp [generateToken, hsp]
    · rw [hsp] at hlen
      simp at hlen
    · simp only [String.toList] at hsp
      simp [generateToken, hsp]
  · intro i s hsp hhex
    simp only [String.toList] at hsp
    simp [generateToken, hsp, hhex]
  · intro e he
    rcases hsp : pySplitColon key.toList with _ | ⟨a, _ | ⟨b, _ | ⟨c, t⟩⟩⟩ <;>
      simp only [String.toList] at hsp
    · simp [generateToken, hsp] at he
      exact ⟨_, he.symm⟩
    · simp [generateToken, hsp] at he
      exact ⟨_, he.symm⟩
    · cases hfx : fromhex (String.mk b) with
      | none =>
        simp [generateToken, hsp, hfx] at he
        exact ⟨_, he.symm⟩
      | some bs =>
        simp [generateToken, hsp, hfx] at he
    · simp [generateToken, hsp] at he
      exact ⟨_, he.symm⟩

/-- Witness for C3: a colon-free credential and a credential with a
non-hex secret both fail with `GhostAuthError`. -/
theorem generate_token_failures_are_auth_errors_witness :
    generateToken "nocolon" 0 =
      .error (.auth "Invalid API key format. Expected 'id:secret'") ∧
    generateToken "id:xz" 0 =
      .error (.auth "Invalid API key secret. Expected hex string.") ∧
    (∃ m, GhostErr.auth "Invalid API key format. Expected 'id:secret'" = GhostErr.auth m) := by
  refine ⟨?_, ?_, ?_⟩
  · exact (generate_token_failures_are_auth_errors "nocolon" 0).1 (by decide)
  · exact (generate_token_failures_are_auth_errors "id:xz" 0).2.1
      ['i', 'd'] ['x', 'z'] rfl rfl
  · exact (generate_token_failures_are_auth_errors "nocolon" 0).2.2 _
      ((generate_token_failures_are_auth_errors "nocolon" 0).1 (by decide))

/-- C4: for every well-formed credential `<id>:<hex secret>` and every
current time, the generated token carries header
`{alg: HS256, kid: <id>, typ: JWT}`, claims with `iat = now`,
`exp - iat = 300` seconds and `aud = "/admin/"`, is signed with the
HS256 (HMAC-SHA-256) algorithm, and uses the hex-decoded secret bytes as
the signing key. -/
theorem generate_token_wellformed (keyId secret : String) (now : Int) (bs : List Nat)
    (hid : ':' ∉ keyId.toList) (hsec : ':' ∉ secret.toList)
    (hhex : fromhex secret = some bs) :
    generateToken (keyId ++ ":" ++ secret) now =
      .ok { header := { alg := "HS256", kid := keyId, typ := "JWT" }
            claims := { iat := now, exp := now + 300, aud := "/admin/" }
            key := bs
            algorithm := "HS256" } ∧
    ∀ t, generateToken (keyId ++ ":" ++ secret) now = .ok t →
      t.claims.exp - t.claims.iat = 300 ∧ t.claims.aud = "/admin/" ∧
      t.header = { alg := "HS256", kid := keyId, typ := "JWT" } ∧
      t.algorithm = "HS256" ∧ t.key = bs := by
  have hspd : pySplitColon (keyId.data ++ ':' :: secret.data) =
      [keyId.data, secret.data] := by
    rw [pySplitColon_append keyId.data secret.data hid,
      pySplitColon_no_colon secret.data hsec]
  have hmain : generateToken (keyId ++ ":" ++ secret) now =
      .ok { header := { alg := "HS256", kid := keyId, typ := "JWT" }
            claims := { iat := now, exp := now + 300, aud := "/admin/" }
            key := bs
            algorithm := "HS256" } := by
    simp [generateToken, hspd, string_mk_data, hhex, JWT_EXPIRY_MINUTES]
  refine ⟨hmain, ?_⟩
  intro t ht
  rw [hmain] at ht
  cases ht
  exact ⟨by norm_num, rfl, rfl, rfl, rfl⟩

/-- Witness for C4 at a concrete credential and time. -/
theorem generate_token_wellformed_witness :
    generateToken ("abc" ++ ":" ++ "ab") 1000 =
      .ok { header := { alg := "HS256", kid := "abc", typ := "JWT" }
            claims := { iat := 1000, exp := 1000 + 300, aud := "/admin/" }
            key := [171]
            algorithm := "HS256" } :=
  (generate_token_wellformed "abc" "ab" 1000 [171] (by decide) (by decide) rfl).1

/-! ## C1, C2: status classification of `_request` -/

/-- Counterexample to C1 as stated: a 422 response whose decoded body has
a present-but-empty `errors` list makes `request()` raise `IndexError`
(from `errors[0]`), not `GhostValidationError`. -/
theorem request_422_not_always_validation_error :
    ghostRequest "/ghost/api/admin/posts/"
        (.response { status := 422,
                     jsonBody := some (Json.obj [("errors", Json.arr [])]),
                     text := "" }) = .error .indexError ∧
    ∀ m, ghostRequest "/ghost/api/admin/posts/"
        (.response { status := 422,
                     jsonBody := some (Json.obj [("errors", Json.arr [])]),
                     text := "" }) ≠ .error (.ghost (.validation m)) := by
  constructor
  · rfl
  · intro m h
    simp [ghostRequest, validationMessage, Json.pyGetD, Json.pyGet, Json.pyIndex0,
      except_bind_ok, except_bind_error', except_map_ok, except_map_error] at h

/-- C1 (amended): `request()` classifies the response status in order with
first match winning — 401 raises AuthError; 404 raises NotFoundError
naming the requested path; 422 raises ValidationError carrying the
extracted message whenever the body decodes as JSON and the extraction
succeeds, and otherwise lets the extraction's or the decoder's own
failure escape; any other `>= 400` status raises ApiError carrying the
status code and the raw body text; a non-error status returns the
decoded JSON body; a transport-level failure raises ConnectionError
wrapping the cause. -/
theorem request_status_classification (ep cause : String) (r : HttpResponse) :
    (ghostRequest ep (.failure cause) =
        .error (.ghost (.connection ("Connection failed: " ++ cause)))) ∧
    (r.status = 401 → ghostRequest ep (.response r) =
        .error (.ghost (.auth "Authentication failed. Check your API key."))) ∧
    (r.status = 404 → ghostRequest ep (.response r) =
        .error (.ghost (.notFound ("Resource not found: " ++ ep)))) ∧
    (r.status = 422 → ∀ d, r.jsonBody = some d →
        ghostRequest ep (.response r) =
          (match validationMessage d with
           | .ok m => .error (.ghost (.validation m))
           | .error e => .error e)) ∧
    (r.status = 422 → r.jsonBody = none →
        ghostRequest ep (.response r) = .error .jsonDecode) ∧
    (r.status ≠ 401 → r.status ≠ 404 → r.status ≠ 422 → 400 ≤ r.status →
        ghostRequest ep (.response r) =
          .error (.ghost (.api ("API error " ++ toString r.status ++ ": " ++ r.text)))) ∧
    (r.status < 400 → ∀ d, r.jsonBody = some d →
        ghostRequest ep (.response r) = .ok d) := by
  refine ⟨rfl, ?_, ?_, ?_, ?_, ?_, ?_⟩
  · intro h
    simp [ghostRequest, h]
  · intro h
    simp [ghostRequest, h]
  · intro h d hd
    simp [ghostRequest, h, hd]
  · intro h hd
    simp [ghostRequest, h, hd]
  · intro h1 h2 h3 h4
    simp [ghostRequest, h1, h2, h3, h4]
  · intro h d hd
    have h1 : r.status ≠ 401 := by omega
    have h2 : r.status ≠ 404 := by omega
    have h3 : r.status ≠ 422 := by omega
    have h4 : ¬ (400 ≤ r.status) := by omega
    simp [ghostRequest, h1, h2, h3, h4, hd]

/-- Witness for C1 (amended) at concrete responses: a 401 raises
AuthError, a 500 with body text raises ApiError carrying status and text,
a 200 with a decoded body returns it, and a transport failure raises
ConnectionError. -/
theorem request_status_classification_witness :
    ghostRequest "/ghost/api/admin/site/"
        (.response { status := 401, jsonBody := none, text := "" }) =
      .error (.ghost (.auth "Authentication failed. Check your API key.")) ∧
    ghostRequest "/ghost/api/admin/site/"
        (.response { status := 500, jsonBody := none, text := "Internal error" }) =
      .error (.ghost (.api ("API error " ++ toString (500 : Nat) ++ ": " ++ "Internal error"))) ∧
    ghostRequest "/ghost/api/admin/site/"
        (.response { status := 200,
                     jsonBody := some (Json.obj [("site", Json.obj [("title", Json.str "Test")])]),
                     text := "" }) =
      .ok (Json.obj [("site", Json.obj [("title", Json.str "Test")])]) ∧
    ghostRequest "/ghost/api/admin/site/" (.failure "dns") =
      .error (.ghost (.connection ("Connection failed: " ++ "dns"))) := by
  refine ⟨?_, ?_, ?_, ?_⟩
  · exact (request_status_classification "/ghost/api/admin/site/" ""
      { status := 401, jsonBody := none, text := "" }).2.1 rfl
  · exact (request_status_classification "/ghost/api/admin/site/" ""
      { status := 500, jsonBody := none, text := "Internal error" }).2.2.2.2.2.1
      (by decide) (by decide) (by decide) (by decide)
  · exact (request_status_classification "/ghost/api/admin/site/" ""
      { status := 200,
        jsonBody := some (Json.obj [("site", Json.obj [("title", Json.str "Test")])]),
        text := "" }).2.2.2.2.2.2 (by decide)
      (Json.obj [("site", Json.obj [("title", Json.str "Test")])]) rfl
  · exact (request_status_classification "/ghost/api/admin/site/" "dns"
      { status := 200, jsonBody := none, text := "" }).1

/-- Counterexample to C2 as stated: for a 422 response whose body maps
`"errors"` to an empty list, the default message is not applied — the
branch raises `IndexError`, an error type other than ValidationError. -/
theorem request_422_empty_errors_raises_indexerror :
    ghostRequest "/ghost/api/admin/webhooks/"
        (.response { status := 422,
                     jsonBody := some (Json.obj [("errors", Json.arr []),
                                                 ("id", Json.str "w1")]),
                     text := "body" }) = .error .indexError ∧
    ∀ m, ghostRequest "/ghost/api/admin/webhooks/"
        (.response { status := 422,
                     jsonBody := some (Json.obj [("errors", Json.arr []),
                                                 ("id", Json.str "w1")]),
                     text := "body" }) ≠ .error (.ghost (.validation m)) := by
  constructor
  · rfl
  · intro m h
    simp [ghostRequest, validationMessage, Json.pyGetD, Json.pyGet, Json.pyIndex0,
      except_bind_ok, except_bind_error', except_map_ok, except_map_error] at h

/-- C2 (amended): on a 422, `request()` decodes the body and extracts
`errors[0].message` as the ValidationError message, defaulting to
`"Validation failed"` when the `errors` key is absent or the first error
object has no `message` field; but a present-and-empty `errors` list
raises `IndexError`, and an undecodable body raises the JSON decoder's
error, so errors other than ValidationError can escape the 422 branch. -/
theorem request_422_message_extraction (ep text : String) (fields : List (String × Json)) :
    (ghostRequest ep (.response { status := 422, jsonBody := none, text := text }) =
        .error .jsonDecode) ∧
    (fields.lookup "errors" = none →
        ghostRequest ep
            (.response { status := 422, jsonBody := some (Json.obj fields), text := text }) =
          .error (.ghost (.validation (Json.str "Validation failed")))) ∧
    (fields.lookup "errors" = some (Json.arr []) →
        ghostRequest ep
            (.response { status := 422, jsonBody := some (Json.obj fields), text := text }) =
          .error .indexError) ∧
    (∀ efields rest m, fields.lookup "errors" = some (Json.arr (Json.obj efields :: rest)) →
        efields.lookup "message" = some m →
        ghostRequest ep
            (.response { status := 422, jsonBody := some (Json.obj fields), text := text }) =
          .error (.ghost (.validation m))) ∧
    (∀ efields rest, fields.lookup "errors" = some (Json.arr (Json.obj efields :: rest)) →
        efields.lookup "message" = none →
        ghostRequest ep
            (.response { status := 422, jsonBody := some (Json.obj fields), text := text }) =
          .error (.ghost (.validation (Json.str "Validation failed")))) := by
  refine ⟨rfl, ?_, ?_, ?_, ?_⟩
  · intro h
    simp [ghostRequest, validationMessage, Json.pyGetD, Json.pyGet, Json.pyIndex0,
      except_bind_ok, except_bind_error', except_map_ok, except_map_error, h]
  · intro h
    simp [ghostRequest, validationMessage, Json.pyGetD, Json.pyGet, Json.pyIndex0,
      except_bind_ok, except_bind_error', except_map_ok, except_map_error, h]
  · intro efields rest m h hm
    simp [ghostRequest, validationMessage, Json.pyGetD, Json.pyGet, Json.pyIndex0,
      except_bind_ok, except_bind_error', except_map_ok, except_map_error, h, hm]
  · intro efields rest h hm
    simp [ghostRequest, validationMessage, Json.pyGetD, Json.pyGet, Json.pyIndex0,
      except_bind_ok, except_bind_error', except_map_ok, except_map_error, h, hm]

/-- Witness for C2 (amended): the spec's example body
`{"errors": [{"message": "Invalid target URL"}]}` yields a
ValidationError carrying exactly that message, and an absent `errors`
key yields the default. -/
theorem request_422_message_extraction_witness :
    ghostRequest "/ghost/api/admin/webhooks/"
        (.response { status := 422,
                     jsonBody := some (Json.obj
                       [("errors", Json.arr [Json.obj [("message", Json.str "Invalid target URL")]])]),
                     text := "" }) =
      .error (.ghost (.validation (Json.str "Invalid target URL"))) ∧
    ghostRequest "/ghost/api/admin/webhooks/"
        (.response { status := 422, jsonBody := some (Json.obj []), text := "" }) =
      .error (.ghost (.validation (Json.str "Validation failed"))) := by
  constructor
  · exact (request_422_message_extraction "/ghost/api/admin/webhooks/" ""
      [("errors", Json.arr [Json.obj [("message", Json.str "Invalid target URL")]])]).2.2.2.1
      [("message", Json.str "Invalid target URL")] [] (Json.str "Invalid target URL") rfl rfl
  · exact (request_422_message_extraction "/ghost/api/admin/webhooks/" "" []).2.1 rfl

/-! ## C9: MRR takes the last element per currency, omits empty series -/

theorem json_str_beq (a b : String) : (Json.str a == Json.str b) = (a == b) := by
  show Json.beq (Json.str a) (Json.str b) = (a == b)
  simp [Json.beq]

theorem pyDictSet_fresh (d : List (Json × Json)) (k v : Json)
    (h : ∀ p ∈ d, Json.beq p.1 k = false) :
    pyDictSet d k v = d ++ [(k, v)] := by
  induction d with
  | nil => rfl
  | cons p rest ih =>
    obtain ⟨k2, v2⟩ := p
    have hk : Json.beq k2 k = false := h (k2, v2) (List.mem_cons_self _ _)
    simp [pyDictSet, hk]
    exact ih fun q hq => h q (List.mem_cons_of_mem _ hq)

theorem mrrStep_wellformed (acc : List (Json × Json)) (c : String) (vs : List Int)
    (hfresh : ∀ p ∈ acc, Json.beq p.1 (Json.str c) = false) :
    mrrStep acc (mkMrrEntry c vs) =
      .ok (acc ++ (vs.getLast?.map fun v => (Json.str c, Json.num v)).toList) := by
  cases vs with
  | nil =>
    simp [mrrStep, mkMrrEntry, Json.pyGetD, Json.pyGet, Json.pyTruthy,
      List.lookup, except_bind_ok, except_map_ok]
  | cons x xs =>
    have hlast : (Json.obj [("value", Json.num x)] ::
        List.map (fun v => Json.obj [("value", Json.num v)]) xs).getLast? =
        some (Json.obj [("value", Json.num ((x :: xs).getLast (List.cons_ne_nil x xs)))]) := by
      rw [show (Json.obj [("value", Json.num x)] ::
          List.map (fun v => Json.obj [("value", Json.num v)]) xs) =
          List.map (fun v => Json.obj [("value", Json.num v)]) (x :: xs) from rfl,
        List.getLast?_map, List.getLast?_eq_getLast_of_ne_nil (List.cons_ne_nil x xs)]
      rfl
    simp [mrrStep, mkMrrEntry, Json.pyGetD, Json.pyGet, Json.pyTruthy, Json.pyIndexLast,
      List.lookup, except_bind_ok, except_map_ok, hlast,
      pyDictSet_fresh acc (Json.str c) _ hfresh,
      List.getLast?_eq_getLast_of_ne_nil (List.cons_ne_nil x xs)]

theorem mrr_foldl_wellformed (entries : List (String × List Int))
    (acc : List (Json × Json))
    (hfresh : ∀ e ∈ entries, ∀ p ∈ acc, Json.beq p.1 (Json.str e.1) = false)
    (hnd : (entries.map Prod.fst).Nodup) :
    List.foldlM mrrStep acc (entries.map fun e => mkMrrEntry e.1 e.2) =
      .ok (acc ++ entries.filterMap fun e =>
        (e.2.getLast?).map fun v => (Json.str e.1, Json.num v)) := by
  induction entries generalizing acc with
  | nil =>
    simp
    rfl
  | cons e rest ih =>
    obtain ⟨c, vs⟩ := e
    simp only [List.map_cons, List.nodup_cons] at hnd
    have hstep := mrrStep_wellformed acc c vs
      (hfresh (c, vs) (List.mem_cons_self _ _))
    rw [List.map_cons, List.foldlM_cons, hstep, except_bind_ok]
    have hfresh' : ∀ e ∈ rest, ∀ p ∈
        acc ++ (vs.getLast?.map fun v => (Json.str c, Json.num v)).toList,
        Json.beq p.1 (Json.str e.1) = false := by
      intro e he p hp
      rcases List.mem_append.mp hp with hpa | hpn
      · exact hfresh e (List.mem_cons_of_mem _ he) p hpa
      · cases hl : vs.getLast? with
        | none => rw [hl] at hpn; cases hpn
        | some v =>
          rw [hl] at hpn
          simp at hpn
          subst hpn
          have hc : c ≠ e.1 := by
            intro hcc
            exact hnd.1 (hcc ▸ List.mem_map_of_mem Prod.fst he)
          show (Json.str c == Json.str e.1) = false
          rw [json_str_beq]
          exact beq_eq_false_iff_ne.mpr hc
    rw [ih _ hfresh' hnd.2]
    cases hl : vs.getLast? with
    | none => simp [hl]
    | some v => simp [hl]

theorem mrrOfBody_wellformed (entries : List (String × List Int))
    (hnd : (entries.map Prod.fst).Nodup) :
    mrrOfBody (mkMrrBody entries) =
      .ok (entries.filterMap fun e =>
        (e.2.getLast?).map fun v => (Json.str e.1, Json.num v)) := by
  have h := mrr_foldl_wellformed entries [] (by simp) hnd
  simp only [List.nil_append] at h
  simp [mrrOfBody, mkMrrBody, Json.pyGetD, Json.pyGet, Json.pyIterList, List.lookup,
    except_bind_ok, except_map_ok, h]

theorem lookup_mrr_filterMap_none (rest : List (String × List Int)) (c : String)
    (h : c ∉ rest.map Prod.fst) :
    (rest.filterMap fun e =>
      (e.2.getLast?).map fun v => (Json.str e.1, Json.num v)).lookup (Json.str c) = none := by
  induction rest with
  | nil => rfl
  | cons e rest ih =>
    obtain ⟨c2, vs2⟩ := e
    simp only [List.map_cons, List.mem_cons, not_or] at h
    cases hl : vs2.getLast? with
    | none =>
      simp only [List.filterMap_cons, hl, Option.map_none']
      exact ih h.2
    | some v =>
      simp only [List.filterMap_cons, hl, Option.map_some']
      rw [List.lookup]
      have : (Json.str c == Json.str c2) = false := by
        rw [json_str_beq]
        exact beq_eq_false_iff_ne.mpr h.1
      rw [this]
      exact ih h.2

theorem lookup_mrr_filterMap (entries : List (String × List Int)) (c : String)
    (vs : List Int) (hnd : (entries.map Prod.fst).Nodup) (hmem : (c, vs) ∈ entries) :
    (entries.filterMap fun e =>
      (e.2.getLast?).map fun v => (Json.str e.1, Json.num v)).lookup (Json.str c) =
      (vs.getLast?).map Json.num := by
  induction entries with
  | nil => cases hmem
  | cons e rest ih =>
    obtain ⟨c2, vs2⟩ := e
    simp only [List.map_cons, List.nodup_cons] at hnd
    rcases List.mem_cons.mp hmem with heq | hmemr
    · obtain ⟨rfl, rfl⟩ := Prod.mk.injEq .. ▸ heq
      cases hl : vs.getLast? with
      | none =>
        simp only [List.filterMap_cons, hl, Option.map_none']
        exact lookup_mrr_filterMap_none rest c hnd.1
      | some v =>
        simp only [List.filterMap_cons, hl, Option.map_some']
        rw [List.lookup]
        have hself : (Json.str c == Json.str c) = true := by
          rw [json_str_beq]
          simp
        rw [hself]
    · have hc : c ≠ c2 := by
        intro hcc
        subst hcc
        exact hnd.1 (List.mem_map_of_mem Prod.fst hmemr)
      cases hl : vs2.getLast? with
      | none =>
        simp only [List.filterMap_cons, hl, Option.map_none']
        exact ih hnd.2 hmemr
      | some v =>
        simp only [List.filterMap_cons, hl, Option.map_some']
        rw [List.lookup]
        have hne : (Json.str c == Json.str c2) = false := by
          rw [json_str_beq]
          exact beq_eq_false_iff_ne.mpr hc
        rw [hne]
        exact ih hnd.2 hmemr

/-- C9: for every well-formed MRR response body with distinct currencies,
`get_mrr` maps each currency to the value of the **last** element of that
currency's time series (never a sum over the series), and a currency
whose series is empty is omitted entirely from the result rather than
mapped to zero. -/
theorem mrr_maps_each_currency_to_last_value (entries : List (String × List Int))
    (hnd : (entries.map Prod.fst).Nodup) (c : String) (vs : List Int)
    (hmem : (c, vs) ∈ entries) :
    ∃ result, mrrOfBody (mkMrrBody entries) = .ok result ∧
      result.lookup (Json.str c) = (vs.getLast?).map Json.num ∧
      (vs = [] → result.lookup (Json.str c) = none) := by
  refine ⟨_, mrrOfBody_wellformed entries hnd, ?_, ?_⟩
  · exact lookup_mrr_filterMap entries c vs hnd hmem
  · intro hvs
    rw [lookup_mrr_filterMap entries c vs hnd hmem, hvs]
    rfl

/-- Witness for C9 at the spec's example: the series
`[{"value": 10000}, {"value": 12284}]` for `"usd"` yields `12284` (the
last element, not the sum `22284`), and an empty `"eur"` series is
omitted from the result. -/
theorem mrr_maps_each_currency_to_last_value_witness :
    (∃ result, mrrOfBody (mkMrrBody [("usd", [10000, 12284]), ("eur", [])]) = .ok result ∧
      result.lookup (Json.str "usd") = some (Json.num 12284)) ∧
    (∃ result, mrrOfBody (mkMrrBody [("usd", [10000, 12284]), ("eur", [])]) = .ok result ∧
      result.lookup (Json.str "eur") = none) := by
  constructor
  · obtain ⟨result, h1, h2, -⟩ := mrr_maps_each_currency_to_last_value
      [("usd", [10000, 12284]), ("eur", [])] (by simp) "usd" [10000, 12284] (by simp)
    refine ⟨result, h1, ?_⟩
    rw [h2]
    rfl
  · obtain ⟨result, h1, -, h3⟩ := mrr_maps_each_currency_to_last_value
      [("usd", [10000, 12284]), ("eur", [])] (by simp) "eur" [] (by simp)
    exact ⟨result, h1, h3 rfl⟩
